import Mathlib

/-!
Verification of the Trident CSI controller server, the persistent-store
transaction log, the storage-class matcher, and the Kubernetes helper
storage-class registration, shallowly embedded from the repository sources
(frontend/csi/controller_server.go, frontend/csi/helpers/kubernetes/plugin.go,
persistent_store/etcdv2_test.go) and, where the implementing package is not
part of the provided sources, modelled from the specification.
-/

deriving instance DecidableEq for Except

/-! ## Basic Trident config types (config package) -/

/-- tridentconfig.Protocol: "file", "block", or "" (ProtocolAny). -/
inductive Protocol
  | File
  | Block
  | ProtocolAny
deriving DecidableEq, Repr

/-- string(Protocol) as used for the CSI volume context. -/
def protocolString : Protocol → String
  | .File => "file"
  | .Block => "block"
  | .ProtocolAny => ""

/-- tridentconfig.AccessMode. -/
inductive AccessMode
  | ReadWriteOnce
  | ReadOnlyMany
  | ReadWriteMany
  | ModeAny
deriving DecidableEq, Repr

/-- csi.VolumeCapability_AccessMode_Mode, with `unknown` standing for every
value not named in the switch statements of the controller server. -/
inductive CSIAccessMode
  | SINGLE_NODE_WRITER
  | SINGLE_NODE_READER_ONLY
  | MULTI_NODE_READER_ONLY
  | MULTI_NODE_SINGLE_WRITER
  | MULTI_NODE_MULTI_WRITER
  | unknown
deriving DecidableEq, Repr

/-- gRPC status codes used by controller_server.go. -/
inductive GrpcCode
  | invalidArgument
  | deadlineExceeded
  | alreadyExists
  | notFound
  | internal
  | unimplemented
deriving DecidableEq, Repr

/-- a gRPC status error as returned by `status.Error(code, msg)`. -/
structure CSIError where
  code : GrpcCode
  message : String
deriving DecidableEq, Repr

/-- an error returned by the core orchestrator; `core.IsNotFoundError`
distinguishes the notFound constructor. -/
inductive OrchErr
  | notFound (message : String)
  | other (message : String)
deriving DecidableEq, Repr

/-- core.IsNotFoundError. -/
def isNotFoundError : OrchErr → Bool
  | .notFound _ => true
  | .other _ => false

/-- err.Error() for an orchestrator error. -/
def errMessage : OrchErr → String
  | .notFound m => m
  | .other m => m

/-- decimal digit accumulation for goParseInt. -/
def parseDigitsAux : List Char → Nat → Option Nat
  | [], acc => some acc
  | c :: cs, acc => if c.isDigit then parseDigitsAux cs (acc * 10 + (c.toNat - 48)) else none

/-- strconv.ParseInt(s, 10, 64) with the error discarded: the parsed value
(optional sign followed by at least one decimal digit), or 0 when the string
does not parse (as in the source, which does
`existingSize, _ := strconv.ParseInt(...)` and sets capacity 0 on error).
Range clamping of out-of-64-bit values is not modelled; no claim involves it. -/
def goParseInt (s : String) : Int :=
  match s.toList with
  | [] => 0
  | '-' :: cs =>
    match cs, parseDigitsAux cs 0 with
    | _ :: _, some n => -(n : Int)
    | _, _ => 0
  | '+' :: cs =>
    match cs, parseDigitsAux cs 0 with
    | _ :: _, some n => (n : Int)
    | _, _ => 0
  | cs =>
    match parseDigitsAux cs 0 with
    | some n => (n : Int)
    | none => 0

/-! ## Volume and snapshot data model (storage package) -/

/-- storage.VolumeConfig (the fields the embedded code reads or writes). -/
structure VolumeConfig where
  name : String
  internalName : String
  size : String
  protocol : Protocol
  accessMode : AccessMode
  storageClass : String
  cloneSourceVolume : String
  cloneSourceSnapshot : String
deriving DecidableEq, Repr

/-- storage.VolumeExternal. -/
structure VolumeExternal where
  config : VolumeConfig
  backendUUID : String
deriving DecidableEq, Repr

/-- storage.SnapshotConfig. -/
structure SnapshotConfig where
  volumeName : String
  name : String
deriving DecidableEq, Repr

/-- storage.SnapshotExternal. -/
structure SnapshotExternal where
  config : SnapshotConfig
  created : String
  sizeBytes : Int
deriving DecidableEq, Repr

/-- storage.BackendExternal (only the Protocol field is read here). -/
structure BackendExternal where
  protocol : Protocol
deriving DecidableEq, Repr

/-- csi.Volume. -/
structure CSIVolume where
  capacityBytes : Int
  volumeId : String
  volumeContext : List (String × String)
deriving DecidableEq, Repr

/-- csi.Snapshot. -/
structure CSISnapshot where
  sizeBytes : Int
  snapshotId : String
  sourceVolumeId : String
  creationTimeSeconds : Int
  readyToUse : Bool
deriving DecidableEq, Repr

/-- Modelled from the spec: `storage.MakeSnapshotID` is not under src/ (only
its call site in getCSISnapshotFromTridentSnapshot is); a snapshot ID is the
owning volume name and the snapshot name joined by a slash. -/
def MakeSnapshotID (volumeName snapshotName : String) : String :=
  volumeName ++ "/" ++ snapshotName

/-- strings.Split on a single separator character. -/
def splitOnChar (c : Char) : List Char → List (List Char)
  | [] => [[]]
  | x :: xs =>
    if x = c then [] :: splitOnChar c xs
    else
      match splitOnChar c xs with
      | [] => [[x]]
      | g :: gs => (x :: g) :: gs

/-- Modelled from the spec: `storage.ParseSnapshotID` is not under src/ (only
its call sites are); it splits the ID on "/" and fails unless there are
exactly two components, the inverse of MakeSnapshotID. -/
def ParseSnapshotID (snapshotID : String) : Option (String × String) :=
  match (splitOnChar '/' snapshotID.toList).map (fun l => String.mk l) with
  | [volumeName, snapshotName] => some (volumeName, snapshotName)
  | _ => none

/-! ## The CSI plugin and its collaborators

The orchestrator and the helper are external collaborators of the controller
server (interfaces `core.Orchestrator` and `helpers.HybridPlugin`); their
implementations are outside the embedded file, so they appear as function
fields. A trace of the mutating orchestrator calls the controller issues is
returned alongside each result. -/

/-- one mutating orchestrator invocation made by the controller server. -/
inductive Call
  | addVolume (config : VolumeConfig)
  | cloneVolume (config : VolumeConfig)
  | deleteVolume (volumeId : String)
  | createSnapshot (config : SnapshotConfig)
  | deleteSnapshot (volumeName snapshotName : String)
deriving DecidableEq, Repr

/-- the subset of core.Orchestrator consumed by controller_server.go. -/
structure Orchestrator where
  getVolume : String → Except OrchErr VolumeExternal
  addVolume : VolumeConfig → Except OrchErr VolumeExternal
  cloneVolume : VolumeConfig → Except OrchErr VolumeExternal
  deleteVolume : String → Except OrchErr Unit
  getSnapshot : String → String → Except OrchErr SnapshotExternal
  listSnapshotsByName : String → Except OrchErr (List SnapshotExternal)
  createSnapshot : SnapshotConfig → Except OrchErr SnapshotExternal
  deleteSnapshot : String → String → Except OrchErr Unit
  listBackends : Except OrchErr (List BackendExternal)

/-- the subset of helpers.HybridPlugin consumed by controller_server.go. -/
structure HelperPlugin where
  getVolumeConfig : String → Int → List (String × String) → Protocol → AccessMode → String →
    Except OrchErr VolumeConfig
  getSnapshotConfig : String → String → Except OrchErr SnapshotConfig

/-- the csi.Plugin state read by the embedded methods.  `csiErrorFor` stands
for getCSIErrorForOrchestratorError (defined in a repository file not under
src/; no claim depends on its mapping, so it is kept abstract), and
`parseRFC3339` with `now` stand for the time package collaborators used by
getCSISnapshotFromTridentSnapshot. -/
structure Plugin where
  orchestrator : Orchestrator
  helper : HelperPlugin
  opCache : List String
  csiErrorFor : OrchErr → CSIError
  parseRFC3339 : String → Option Int
  now : Int

/-! ## CSI request/response types -/

structure CapacityRange where
  requiredBytes : Int
deriving DecidableEq, Repr

structure MountCapability where
  fsType : String
deriving DecidableEq, Repr

/-- csi.VolumeCapability: `block` is whether GetBlock() is non-nil. -/
structure VolumeCapability where
  block : Bool
  mount : Option MountCapability
  accessMode : CSIAccessMode
deriving DecidableEq, Repr

inductive VolumeContentSource
  | volume (volumeId : String)
  | snapshot (snapshotId : String)
deriving DecidableEq, Repr

structure CreateVolumeRequest where
  name : String
  capacityRange : Option CapacityRange
  volumeCapabilities : List VolumeCapability
  parameters : List (String × String)
  volumeContentSource : Option VolumeContentSource
deriving DecidableEq, Repr

structure DeleteVolumeRequest where
  volumeId : String
deriving DecidableEq, Repr

structure CreateSnapshotRequest where
  sourceVolumeId : String
  name : String
deriving DecidableEq, Repr

structure DeleteSnapshotRequest where
  snapshotId : String
deriving DecidableEq, Repr

/-- req.GetCapacityRange().GetRequiredBytes(): 0 when the range is absent. -/
def requiredBytes (req : CreateVolumeRequest) : Int :=
  match req.capacityRange with
  | some r => r.requiredBytes
  | none => 0

/-! ## Pure helper methods of the controller server -/

/-- getAccessForCSIAccessMode (controller_server.go). -/
def getAccessForCSIAccessMode : CSIAccessMode → AccessMode
  | .SINGLE_NODE_WRITER => .ReadWriteOnce
  | .SINGLE_NODE_READER_ONLY => .ReadWriteOnce
  | .MULTI_NODE_READER_ONLY => .ReadOnlyMany
  | .MULTI_NODE_SINGLE_WRITER => .ReadWriteMany
  | .MULTI_NODE_MULTI_WRITER => .ReadWriteMany
  | .unknown => .ModeAny

/-- getProtocolForCSIAccessMode (controller_server.go). -/
def getProtocolForCSIAccessMode : CSIAccessMode → Protocol
  | .SINGLE_NODE_WRITER => .ProtocolAny
  | .SINGLE_NODE_READER_ONLY => .ProtocolAny
  | .MULTI_NODE_READER_ONLY => .ProtocolAny
  | .MULTI_NODE_SINGLE_WRITER => .ProtocolAny
  | .MULTI_NODE_MULTI_WRITER => .File
  | .unknown => .ProtocolAny

/-- hasBackendForProtocol (controller_server.go). -/
def hasBackendForProtocol (p : Plugin) (protocol : Protocol) : Bool :=
  match p.orchestrator.listBackends with
  | .error _ => false
  | .ok backends =>
    if backends = [] then false
    else if protocol = .ProtocolAny then true
    else backends.any (fun b => b.protocol = .ProtocolAny || b.protocol = protocol)

/-- getCSIVolumeFromTridentVolume (controller_server.go); the source's error
return is always nil, so the function is total here. -/
def getCSIVolumeFromTridentVolume (volume : VolumeExternal) : CSIVolume :=
  { capacityBytes := goParseInt volume.config.size
    volumeId := volume.config.name
    volumeContext :=
      [("backendUUID", volume.backendUUID),
       ("name", volume.config.name),
       ("internalName", volume.config.internalName),
       ("protocol", protocolString volume.config.protocol)] }

/-- getCSISnapshotFromTridentSnapshot (controller_server.go): an unparsable
RFC3339 creation time falls back to time.Now(), modelled by `p.now`. -/
def getCSISnapshotFromTridentSnapshot (p : Plugin) (snapshot : SnapshotExternal) : CSISnapshot :=
  let createdSeconds : Int :=
    match p.parseRFC3339 snapshot.created with
    | some t => t
    | none => p.now
  { sizeBytes := snapshot.sizeBytes
    snapshotId := MakeSnapshotID snapshot.config.volumeName snapshot.config.name
    sourceVolumeId := snapshot.config.volumeName
    creationTimeSeconds := createdSeconds
    readyToUse := true }

/-! ## CreateVolume -/

/-- the capability loop of CreateVolume: rejects block access types, and for
each capability recomputes the access mode and protocol and checks that a
backend offers the protocol; the mount fsType of the last mount capability
wins, as in the source loop. -/
def checkVolumeCapabilities (p : Plugin) :
    List VolumeCapability → Protocol → AccessMode → String →
    Except CSIError (Protocol × AccessMode × String)
  | [], protocol, accessMode, fsType => .ok (protocol, accessMode, fsType)
  | c :: rest, _, _, fsType =>
    if c.block then
      .error ⟨.invalidArgument, "block access type not supported"⟩
    else
      let accessMode := getAccessForCSIAccessMode c.accessMode
      let protocol := getProtocolForCSIAccessMode c.accessMode
      if hasBackendForProtocol p protocol then
        let fsType :=
          match c.mount with
          | some m => m.fsType
          | none => fsType
        checkVolumeCapabilities p rest protocol accessMode fsType
      else
        .error ⟨.invalidArgument, "no available storage for access mode"⟩

/-- the VolumeContentSource switch of CreateVolume. -/
def applyContentSource : Option VolumeContentSource → VolumeConfig → Except CSIError VolumeConfig
  | none, volConfig => .ok volConfig
  | some (.volume volumeId), volConfig =>
    if volumeId = "" then
      .error ⟨.invalidArgument, "content source volume ID missing in request"⟩
    else
      .ok { volConfig with cloneSourceVolume := volumeId }
  | some (.snapshot snapshotId), volConfig =>
    if snapshotId = "" then
      .error ⟨.invalidArgument, "content source snapshot ID missing in request"⟩
    else
      match ParseSnapshotID snapshotId with
      | none => .error ⟨.invalidArgument, "invalid snapshot ID"⟩
      | some (cloneSourceVolume, cloneSourceSnapshot) =>
        .ok { volConfig with
                cloneSourceVolume := cloneSourceVolume
                cloneSourceSnapshot := cloneSourceSnapshot }

/-- the body of CreateVolume after the opCache guard, in source order:
argument checks, pre-existing volume lookup and size comparison, capability
checks, helper conversion, content source, then AddVolume or CloneVolume. -/
def CreateVolumeBody (p : Plugin) (req : CreateVolumeRequest) :
    Except CSIError CSIVolume × List Call :=
  if req.name = "" then
    (.error ⟨.invalidArgument, "volume name missing in request"⟩, [])
  else if req.volumeCapabilities = [] then
    (.error ⟨.invalidArgument, "volume capabilities missing in request"⟩, [])
  else
    match p.orchestrator.getVolume req.name with
    | .ok existingVolume =>
      if goParseInt existingVolume.config.size < requiredBytes req then
        (.error ⟨.alreadyExists,
          "volume " ++ req.name ++ " (but with different size) already exists"⟩, [])
      else
        (.ok (getCSIVolumeFromTridentVolume existingVolume), [])
    | .error e =>
      if isNotFoundError e then
        match checkVolumeCapabilities p req.volumeCapabilities .ProtocolAny .ModeAny "" with
        | .error cerr => (.error cerr, [])
        | .ok (protocol, accessMode, fsType) =>
          let sizeBytes := requiredBytes req
          match p.helper.getVolumeConfig req.name sizeBytes req.parameters protocol accessMode fsType with
          | .error e2 => (.error (p.csiErrorFor e2), [])
          | .ok volConfig =>
            match applyContentSource req.volumeContentSource volConfig with
            | .error cerr => (.error cerr, [])
            | .ok volConfig2 =>
              if volConfig2.cloneSourceVolume = "" then
                match p.orchestrator.addVolume volConfig2 with
                | .error e3 => (.error (p.csiErrorFor e3), [.addVolume volConfig2])
                | .ok newVolume =>
                  (.ok (getCSIVolumeFromTridentVolume newVolume), [.addVolume volConfig2])
              else
                match p.orchestrator.cloneVolume volConfig2 with
                | .error e3 => (.error (p.csiErrorFor e3), [.cloneVolume volConfig2])
                | .ok newVolume =>
                  (.ok (getCSIVolumeFromTridentVolume newVolume), [.cloneVolume volConfig2])
      else
        (.error (p.csiErrorFor e), [])

/-- the result of CreateVolume: the gRPC result, the trace of mutating
orchestrator calls, and the opCache after the deferred delete ran. -/
structure CSIVolumeResult where
  result : Except CSIError CSIVolume
  calls : List Call
  opCache : List String
deriving Repr

/-- CreateVolume (controller_server.go): the per-name opCache guard returns
DeadlineExceeded when the name is already in flight; otherwise the name is
added for the duration of the body and removed by the deferred delete. -/
def CreateVolume (p : Plugin) (req : CreateVolumeRequest) : CSIVolumeResult :=
  if req.name ∈ p.opCache then
    { result := .error ⟨.deadlineExceeded, "create already in progress"⟩
      calls := []
      opCache := p.opCache }
  else
    let cache := req.name :: p.opCache
    let body := CreateVolumeBody { p with opCache := cache } req
    { result := body.1, calls := body.2, opCache := cache.erase req.name }

/-! ## DeleteVolume, CreateSnapshot, DeleteSnapshot -/

/-- DeleteVolume (controller_server.go); note there is no opCache guard here. -/
def DeleteVolume (p : Plugin) (req : DeleteVolumeRequest) :
    Except CSIError Unit × List Call :=
  if req.volumeId = "" then
    (.error ⟨.invalidArgument, "no volume ID provided"⟩, [])
  else
    match p.orchestrator.deleteVolume req.volumeId with
    | .ok _ => (.ok (), [.deleteVolume req.volumeId])
    | .error e =>
      if isNotFoundError e then
        (.ok (), [.deleteVolume req.volumeId])
      else
        (.error (p.csiErrorFor e), [.deleteVolume req.volumeId])

/-- CreateSnapshot (controller_server.go). -/
def CreateSnapshot (p : Plugin) (req : CreateSnapshotRequest) :
    Except CSIError CSISnapshot × List Call :=
  let volumeName := req.sourceVolumeId
  if volumeName = "" then
    (.error ⟨.invalidArgument, "no volume ID provided"⟩, [])
  else
    let snapshotName := req.name
    if snapshotName = "" then
      (.error ⟨.invalidArgument, "no snapshot name provided"⟩, [])
    else
      match p.orchestrator.getSnapshot volumeName snapshotName with
      | .ok existingSnapshot =>
        (.ok (getCSISnapshotFromTridentSnapshot p existingSnapshot), [])
      | .error e =>
        if isNotFoundError e then
          match p.orchestrator.listSnapshotsByName snapshotName with
          | .error e2 => (.error (p.csiErrorFor e2), [])
          | .ok existingSnapshots =>
            if existingSnapshots.length > 0 then
              (.error ⟨.alreadyExists, "snapshot exists on a different volume"⟩, [])
            else
              match p.helper.getSnapshotConfig volumeName snapshotName with
              | .error e3 => (.error (p.csiErrorFor e3), [])
              | .ok snapshotConfig =>
                match p.orchestrator.createSnapshot snapshotConfig with
                | .error e4 =>
                  if isNotFoundError e4 then
                    (.error ⟨.notFound, errMessage e4⟩, [.createSnapshot snapshotConfig])
                  else
                    (.error ⟨.internal, errMessage e4⟩, [.createSnapshot snapshotConfig])
                | .ok newSnapshot =>
                  (.ok (getCSISnapshotFromTridentSnapshot p newSnapshot),
                   [.createSnapshot snapshotConfig])
        else
          (.error (p.csiErrorFor e), [])

/-- DeleteSnapshot (controller_server.go): an invalid snapshot ID is treated
as a non-existent snapshot, so the error is logged and success returned. -/
def DeleteSnapshot (p : Plugin) (req : DeleteSnapshotRequest) :
    Except CSIError Unit × List Call :=
  if req.snapshotId = "" then
    (.error ⟨.invalidArgument, "no snapshot ID provided"⟩, [])
  else
    match ParseSnapshotID req.snapshotId with
    | none => (.ok (), [])
    | some (volumeName, snapshotName) =>
      match p.orchestrator.deleteSnapshot volumeName snapshotName with
      | .ok _ => (.ok (), [.deleteSnapshot volumeName snapshotName])
      | .error e =>
        if isNotFoundError e then
          (.ok (), [.deleteSnapshot volumeName snapshotName])
        else
          (.error (p.csiErrorFor e), [.deleteSnapshot volumeName snapshotName])

/-! ## Persistent store (persistent_store package)

Modelled from the spec: the etcdv2 client implementation is not under src/
(only its test file persistent_store/etcdv2_test.go is).  The spec describes
a hierarchical key/value store with Create/Read/Update/Delete/ReadKeys that
must surface a distinguishable "key not found" condition separate from
connectivity errors.  The store is an association list from keys to values;
serialization of stored objects is elided by making the value type a
parameter. -/

/-- a persistent-store error; MatchKeyNotFoundErr and
MatchUnavailableClusterErr (seen in the test file) distinguish the cases. -/
inductive StoreError
  | keyNotFound
  | keyExists
  | unavailableCluster
deriving DecidableEq, Repr

/-- MatchKeyNotFoundErr (persistent_store package). -/
def MatchKeyNotFoundErr (e : StoreError) : Bool :=
  e = StoreError.keyNotFound

/-- MatchUnavailableClusterErr (persistent_store package). -/
def MatchUnavailableClusterErr (e : StoreError) : Bool :=
  e = StoreError.unavailableCluster

/-- the key/value store state. -/
def KVStore (α : Type) : Type := List (String × α)

namespace KVStore

/-- Modelled from the spec: Read(key) fails with the key-not-found error when
the key is absent. -/
def Read (s : KVStore α) (key : String) : Except StoreError α :=
  match s.lookup key with
  | some v => .ok v
  | none => .error .keyNotFound

/-- Modelled from the spec: Set(key,val) persists the value under the key,
replacing any existing value. -/
def Set (s : KVStore α) (key : String) (value : α) : KVStore α :=
  (key, value) :: List.filter (fun kv => kv.1 != key) s

/-- Modelled from the spec: Create(key,val) stores a fresh key. -/
def Create (s : KVStore α) (key : String) (value : α) : Except StoreError (KVStore α) :=
  match s.lookup key with
  | some _ => .error .keyExists
  | none => .ok ((key, value) :: s)

/-- Modelled from the spec: Update(key,val) fails distinctly if the key is
absent, and in that case stores nothing. -/
def Update (s : KVStore α) (key : String) (value : α) : Except StoreError (KVStore α) :=
  match s.lookup key with
  | some _ => .ok (Set s key value)
  | none => .error .keyNotFound

/-- Modelled from the spec: Delete(key) fails with key-not-found when the key
is absent. -/
def Delete (s : KVStore α) (key : String) : Except StoreError (KVStore α) :=
  match s.lookup key with
  | some _ => .ok (List.filter (fun kv => kv.1 != key) s)
  | none => .error .keyNotFound

/-- Modelled from the spec: ReadKeys(pfx) lists keys under a hierarchy level;
an empty result surfaces as key-not-found (as the tests expect). -/
def ReadKeys (s : KVStore α) (pfx : String) : Except StoreError (List String) :=
  let keys := (s.map Prod.fst).filter (fun k => pfx.toList.isPrefixOf k.toList)
  if keys = [] then .error .keyNotFound else .ok keys

end KVStore

/-! ## Volume transaction log

Modelled from the spec: AddVolumeTransaction / GetVolumeTransactions /
DeleteVolumeTransaction of the etcdv2 client are not under src/ (only
persistent_store/etcdv2_test.go is).  Per the spec, a transaction is a
record {Op, Config} persisted under a key derived from the resource name,
and Begin for an existing name replaces the pending record. -/

/-- persistentstore.VolumeOperation. -/
inductive VolumeOperation
  | addVolume
  | deleteVolume
  | resizeVolume
  | addSnapshot
  | deleteSnapshot
deriving DecidableEq, Repr

/-- persistentstore.VolumeTransaction. -/
structure VolumeTransaction where
  config : VolumeConfig
  op : VolumeOperation
deriving DecidableEq, Repr

/-- the store key of a transaction, derived from the resource name. -/
def volumeTransactionKey (name : String) : String :=
  "/trident/v1/txn/" ++ name

/-- Modelled from the spec: Begin/AddVolumeTransaction persists the record
under the resource name, replacing any existing one for that name. -/
def AddVolumeTransaction (s : KVStore VolumeTransaction) (txn : VolumeTransaction) :
    KVStore VolumeTransaction :=
  KVStore.Set s (volumeTransactionKey txn.config.name) txn

/-- Modelled from the spec: List/GetVolumeTransactions enumerates all
currently pending records of the dedicated transaction subtree. -/
def GetVolumeTransactions (s : KVStore VolumeTransaction) : List VolumeTransaction :=
  s.map Prod.snd

/-- the pending transactions recorded for one resource name. -/
def pendingTransactionsFor (s : KVStore VolumeTransaction) (name : String) :
    List VolumeTransaction :=
  (s.filter (fun kv => kv.1 == volumeTransactionKey name)).map Prod.snd

/-! ## Storage class matcher (storage_class package)

Modelled from the spec: the matcher implementation is not under src/.  Spec
section 4.2 gives the algorithm: the base set is the pools whose attributes
and protocol match (abstracted here into one predicate supplied with the
input); a non-empty explicit storagePools list intersects the base set; the
additionalStoragePools pairs are unioned in unconditionally (the explicit
override bypasses attribute matching); the excludeStoragePools pairs are
subtracted. -/

/-- a (backend, pool) pair. -/
structure PoolRef where
  backend : String
  pool : String
deriving DecidableEq, Repr

/-- one matcher invocation: the discovered pool universe, the combined
attribute/protocol match predicate (attrMatch), and the three explicit pool lists of the
storage class. -/
structure MatcherInput where
  poolSet : Finset PoolRef
  attrMatch : PoolRef → Bool
  pools : Finset PoolRef
  additionalPools : Finset PoolRef
  excludePools : Finset PoolRef

/-- Modelled from the spec: Candidates(class, request) following the step
order of spec section 4.2. -/
def Candidates (i : MatcherInput) : Finset PoolRef :=
  let base := i.poolSet.filter (fun p => i.attrMatch p = true)
  let restricted := if i.pools = ∅ then base else base ∩ i.pools
  (restricted ∪ i.additionalPools) \ i.excludePools

/-- the candidate-set formula asserted by the claim: (attribute-matched ∪
AdditionalPools) ∩ (the explicit storagePools list if non-empty, otherwise
the universe) − ExcludePools. -/
def claimedCandidates (i : MatcherInput) : Finset PoolRef :=
  let attrMatched := i.poolSet.filter (fun p => i.attrMatch p = true)
  ((attrMatched ∪ i.additionalPools) ∩ (if i.pools = ∅ then i.poolSet else i.pools))
    \ i.excludePools

/-- the corrected formula: AdditionalPools are unioned in after the explicit
storagePools intersection, so they are not filtered by it. -/
def amendedCandidates (i : MatcherInput) : Finset PoolRef :=
  let attrMatched := i.poolSet.filter (fun p => i.attrMatch p = true)
  ((attrMatched ∩ (if i.pools = ∅ then i.poolSet else i.pools)) ∪ i.additionalPools)
    \ i.excludePools

/-! ## Storage class registration (frontend/csi/helpers/kubernetes/plugin.go)

processAddedStorageClass builds a storageclass.Config from the Kubernetes
storage class parameters.  The two parser functions live in the
storage_attribute package, which is not under src/, so they are abstract
fields of the environment; the source branches only on their success. -/

/-- an opaque parsed attribute request (storageattribute.Request). -/
structure AttrRequest where
  raw : String
deriving DecidableEq, Repr

/-- a backend-to-pools map as parsed from "backend1:pool1,pool2;backend2:pool1". -/
def BackendPoolsMap : Type := List (String × List String)

/-- storageclass.Config as populated by processAddedStorageClass. -/
structure SCConfig where
  name : String
  attributes : List (String × AttrRequest)
  pools : BackendPoolsMap
  additionalPools : BackendPoolsMap
  excludePools : BackendPoolsMap

/-- the storage_attribute parameter-name constants matched by the switch
(K8sFsType, RequiredStorage, AdditionalStoragePools, ExcludeStoragePools,
StoragePools). -/
def K8sFsType : String := "fsType"
def RequiredStorage : String := "requiredStorage"
def AdditionalStoragePools : String := "additionalStoragePools"
def ExcludeStoragePools : String := "excludeStoragePools"
def StoragePools : String := "storagePools"

/-- the collaborators of processAddedStorageClass: the two storage_attribute
parsers (Modelled from the spec: their implementations are not under src/,
only their call sites; a failed pools parse returns the nil map alongside the
error, mirrored by `poolsOrEmpty`). -/
structure SCHelperEnv where
  createBackendStoragePoolsMapFromEncodedString : String → Except String BackendPoolsMap
  createAttributeRequestFromAttributeValue : String → String → Except String AttrRequest

/-- the map assigned after a pools-parameter parse: the parsed map, or the
nil (empty) map when parsing failed, since the source logs the error and
assigns the returned map unconditionally. -/
def poolsOrEmpty (env : SCHelperEnv) (v : String) : BackendPoolsMap :=
  match env.createBackendStoragePoolsMapFromEncodedString v with
  | .ok m => m
  | .error _ => []

/-- the parameter loop of processAddedStorageClass: pool-list parameters that
fail to parse leave their field empty and processing continues, while a
failed ordinary attribute parse returns (aborting registration, signalled by
none). -/
def processSCParams (env : SCHelperEnv) :
    List (String × String) → SCConfig → Option SCConfig
  | [], scConfig => some scConfig
  | (k, v) :: rest, scConfig =>
    if k = K8sFsType then
      processSCParams env rest scConfig
    else if k = RequiredStorage ∨ k = AdditionalStoragePools then
      processSCParams env rest { scConfig with additionalPools := poolsOrEmpty env v }
    else if k = ExcludeStoragePools then
      processSCParams env rest { scConfig with excludePools := poolsOrEmpty env v }
    else if k = StoragePools then
      processSCParams env rest { scConfig with pools := poolsOrEmpty env v }
    else
      match env.createAttributeRequestFromAttributeValue k v with
      | .error _ => none
      | .ok req =>
        processSCParams env rest { scConfig with attributes := scConfig.attributes ++ [(k, req)] }

/-- processAddedStorageClass (plugin.go): builds the config from the
parameters; the result is the config handed to orchestrator.AddStorageClass,
or none when registration was aborted by an attribute parse failure. -/
def processAddedStorageClass (env : SCHelperEnv) (name : String)
    (parameters : List (String × String)) : Option SCConfig :=
  processSCParams env parameters
    { name := name, attributes := [], pools := [], additionalPools := [], excludePools := [] }

/-! ## Concrete environments used by witnesses and counterexamples -/

/-- an orchestrator whose collaborators are inert: every lookup misses and
every mutating call fails; concrete environments override single fields. -/
def stubOrchestrator : Orchestrator where
  getVolume := fun _ => .error (.notFound "volume not found")
  addVolume := fun _ => .error (.other "add failed")
  cloneVolume := fun _ => .error (.other "clone failed")
  deleteVolume := fun _ => .error (.notFound "volume not found")
  getSnapshot := fun _ _ => .error (.notFound "snapshot not found")
  listSnapshotsByName := fun _ => .ok []
  createSnapshot := fun _ => .error (.other "create failed")
  deleteSnapshot := fun _ _ => .error (.notFound "snapshot not found")
  listBackends := .ok [{ protocol := .File }]

def stubHelper : HelperPlugin where
  getVolumeConfig := fun _ _ _ _ _ _ => .error (.other "no volume config")
  getSnapshotConfig := fun _ _ => .error (.other "no snapshot config")

def stubPlugin : Plugin where
  orchestrator := stubOrchestrator
  helper := stubHelper
  opCache := []
  csiErrorFor := fun e => ⟨.internal, errMessage e⟩
  parseRFC3339 := fun _ => none
  now := 0

/-- an existing 1 GiB volume named v1. -/
def volumeV1 : VolumeExternal :=
  { config := { name := "v1", internalName := "trident-v1", size := "1073741824",
                protocol := .File, accessMode := .ReadWriteOnce, storageClass := "gold",
                cloneSourceVolume := "", cloneSourceSnapshot := "" },
    backendUUID := "uuid-1" }

/-- a plugin whose orchestrator knows volume v1. -/
def pluginWithV1 : Plugin :=
  { stubPlugin with
    orchestrator :=
      { stubOrchestrator with
        getVolume := fun n =>
          if n = "v1" then .ok volumeV1 else .error (.notFound "volume not found") } }

/-- a create request for v1 with one single-node-writer mount capability. -/
def createReqV1 (size : Int) : CreateVolumeRequest :=
  { name := "v1", capacityRange := some ⟨size⟩,
    volumeCapabilities := [{ block := false, mount := none, accessMode := .SINGLE_NODE_WRITER }],
    parameters := [], volumeContentSource := none }

/-- a plugin with v1 marked in flight and a deletable volume. -/
def busyPlugin : Plugin :=
  { stubPlugin with
    opCache := ["v1"]
    orchestrator := { stubOrchestrator with deleteVolume := fun _ => .ok () } }

/-- an existing snapshot s1 of volume v1. -/
def snapshotS1 : SnapshotExternal :=
  { config := { volumeName := "v1", name := "s1" },
    created := "2019-05-01T00:00:00Z", sizeBytes := 1000 }

/-- a snapshot named s1 owned by a different volume v2. -/
def snapshotS1OnV2 : SnapshotExternal :=
  { config := { volumeName := "v2", name := "s1" },
    created := "2019-05-01T00:00:00Z", sizeBytes := 1000 }

/-- a plugin whose orchestrator knows snapshot (v1, s1). -/
def snapPlugin : Plugin :=
  { stubPlugin with
    orchestrator :=
      { stubOrchestrator with
        getSnapshot := fun v s =>
          if v = "v1" ∧ s = "s1" then .ok snapshotS1
          else .error (.notFound "snapshot not found") } }

/-- a plugin where the only snapshot named s1 lives on volume v2. -/
def snapOtherPlugin : Plugin :=
  { stubPlugin with
    orchestrator :=
      { stubOrchestrator with
        listSnapshotsByName := fun s => if s = "s1" then .ok [snapshotS1OnV2] else .ok [] } }

/-- a plugin whose only backend speaks the block protocol. -/
def blockOnlyPlugin : Plugin :=
  { stubPlugin with
    orchestrator := { stubOrchestrator with listBackends := .ok [{ protocol := .Block }] } }

/-- the protocol/access-mode compatibility matrix as the claim words it:
block is compatible exactly with single-writer and read-only-many, file also
with multi-writer (ProtocolAny rows are unconstrained by the claim). -/
def specProtocolCompatible : Protocol → AccessMode → Bool
  | .Block, .ReadWriteOnce => true
  | .Block, .ReadOnlyMany => true
  | .Block, _ => false
  | .File, .ReadWriteOnce => true
  | .File, .ReadOnlyMany => true
  | .File, .ReadWriteMany => true
  | .File, _ => false
  | .ProtocolAny, _ => true

/-! ## Claims C1, C3, C4 (controller server volume paths) -/

/-- C1: a volume-create request whose name matches an existing Volume
succeeds with the existing Volume and no orchestrator create call when the
existing size is at least the requested size, and fails with AlreadyExists
when the existing size is strictly smaller. -/
theorem trident_C1_createVolume_existing (p : Plugin) (req : CreateVolumeRequest)
    (v : VolumeExternal)
    (hguard : req.name ∉ p.opCache)
    (hname : req.name ≠ "")
    (hcaps : req.volumeCapabilities ≠ [])
    (hget : p.orchestrator.getVolume req.name = .ok v) :
    (requiredBytes req ≤ goParseInt v.config.size →
      CreateVolume p req =
        { result := .ok (getCSIVolumeFromTridentVolume v), calls := [],
          opCache := p.opCache }) ∧
    (goParseInt v.config.size < requiredBytes req →
      (CreateVolume p req).result =
        .error ⟨.alreadyExists,
          "volume " ++ req.name ++ " (but with different size) already exists"⟩ ∧
      (CreateVolume p req).calls = []) := by
  constructor
  · intro hle
    simp [CreateVolume, hguard, CreateVolumeBody, hname, hcaps, hget,
      not_lt.mpr hle, List.erase_cons_head]
  · intro hlt
    simp [CreateVolume, hguard, CreateVolumeBody, hname, hcaps, hget, hlt]

/-- witness for C1 at the 1 GiB volume v1: re-requesting 1 GiB returns the
existing volume with no call, and requesting 2 GiB is rejected. -/
theorem trident_C1_createVolume_existing_witness :
    CreateVolume pluginWithV1 (createReqV1 1073741824) =
      { result := .ok (getCSIVolumeFromTridentVolume volumeV1), calls := [],
        opCache := [] } ∧
    (CreateVolume pluginWithV1 (createReqV1 2147483648)).result =
      .error ⟨.alreadyExists, "volume v1 (but with different size) already exists"⟩ := by
  constructor
  · exact (trident_C1_createVolume_existing pluginWithV1 (createReqV1 1073741824) volumeV1
      (by decide) (by decide) (by decide) (by decide)).1 (by decide)
  · exact ((trident_C1_createVolume_existing pluginWithV1 (createReqV1 2147483648) volumeV1
      (by decide) (by decide) (by decide) (by decide)).2 (by decide)).1

/-- C3 counterexample: with v1 already in the in-flight set, DeleteVolume
still invokes the orchestrator delete and returns success instead of an
in-progress error, because only CreateVolume consults the opCache. -/
theorem trident_C3_counterexample :
    "v1" ∈ busyPlugin.opCache ∧
    DeleteVolume busyPlugin ⟨"v1"⟩ = (.ok (), [.deleteVolume "v1"]) := by
  decide

/-- C3 amended: only the CreateVolume entry point consults the per-name
in-flight opCache: a name already present yields the DeadlineExceeded
in-progress error with no orchestrator call and an unchanged cache, and in
every case the in-flight entry is gone when the call finishes. -/
theorem trident_C3_amended (p : Plugin) (req : CreateVolumeRequest) :
    (req.name ∈ p.opCache →
      CreateVolume p req =
        { result := .error ⟨.deadlineExceeded, "create already in progress"⟩,
          calls := [], opCache := p.opCache }) ∧
    (CreateVolume p req).opCache = p.opCache := by
  constructor
  · intro h
    simp [CreateVolume, h]
  · by_cases h : req.name ∈ p.opCache
    · simp [CreateVolume, h]
    · simp [CreateVolume, h, List.erase_cons_head]

/-- witness for C3 amended: a second create for the in-flight v1 fails fast. -/
theorem trident_C3_amended_witness :
    CreateVolume busyPlugin (createReqV1 1073741824) =
      { result := .error ⟨.deadlineExceeded, "create already in progress"⟩,
        calls := [], opCache := ["v1"] } :=
  (trident_C3_amended busyPlugin (createReqV1 1073741824)).1 (by decide)

/-- C4: when the orchestrator delete reports a not-found condition,
DeleteVolume absorbs it and returns success. -/
theorem trident_C4_deleteVolume_idempotent (p : Plugin) (req : DeleteVolumeRequest)
    (e : OrchErr)
    (hid : req.volumeId ≠ "")
    (hdel : p.orchestrator.deleteVolume req.volumeId = .error e)
    (hnf : isNotFoundError e = true) :
    (DeleteVolume p req).1 = .ok () := by
  simp [DeleteVolume, hid, hdel, hnf]

/-- witness for C4: deleting the absent volume "missing" succeeds. -/
theorem trident_C4_deleteVolume_idempotent_witness :
    (DeleteVolume stubPlugin ⟨"missing"⟩).1 = .ok () :=
  trident_C4_deleteVolume_idempotent stubPlugin ⟨"missing"⟩ (.notFound "volume not found")
    (by decide) (by decide) (by decide)

/-! ## Claims C5, C9 (controller server snapshot paths) -/

/-- C5: a snapshot-create for a name that already exists on the same volume
returns the existing snapshot with no create call, and a name that exists
only on a different volume is rejected with AlreadyExists. -/
theorem trident_C5_createSnapshot_duplicate (p : Plugin) (req : CreateSnapshotRequest)
    (hvol : req.sourceVolumeId ≠ "")
    (hname : req.name ≠ "") :
    (∀ s, p.orchestrator.getSnapshot req.sourceVolumeId req.name = .ok s →
      CreateSnapshot p req = (.ok (getCSISnapshotFromTridentSnapshot p s), [])) ∧
    (∀ e s0 rest, p.orchestrator.getSnapshot req.sourceVolumeId req.name = .error e →
      isNotFoundError e = true →
      p.orchestrator.listSnapshotsByName req.name = .ok (s0 :: rest) →
      CreateSnapshot p req =
        (.error ⟨.alreadyExists, "snapshot exists on a different volume"⟩, [])) := by
  constructor
  · intro s hget
    simp [CreateSnapshot, hvol, hname, hget]
  · intro e s0 rest hget hnf hlist
    simp [CreateSnapshot, hvol, hname, hget, hnf, hlist]

/-- witness for C5: recreating (v1, s1) returns the existing snapshot, and
creating (v1, s1) while s1 already exists on v2 is rejected. -/
theorem trident_C5_createSnapshot_duplicate_witness :
    CreateSnapshot snapPlugin ⟨"v1", "s1"⟩ =
      (.ok (getCSISnapshotFromTridentSnapshot snapPlugin snapshotS1), []) ∧
    CreateSnapshot snapOtherPlugin ⟨"v1", "s1"⟩ =
      (.error ⟨.alreadyExists, "snapshot exists on a different volume"⟩, []) := by
  constructor
  · exact (trident_C5_createSnapshot_duplicate snapPlugin ⟨"v1", "s1"⟩
      (by decide) (by decide)).1 snapshotS1 (by decide)
  · exact (trident_C5_createSnapshot_duplicate snapOtherPlugin ⟨"v1", "s1"⟩
      (by decide) (by decide)).2 (.notFound "snapshot not found") snapshotS1OnV2 []
      (by decide) (by decide) (by decide)

/-- C9: a snapshot-delete whose ID does not parse into a (volume, snapshot)
pair returns success without attempting any delete. -/
theorem trident_C9_deleteSnapshot_invalid_id (p : Plugin) (req : DeleteSnapshotRequest)
    (hid : req.snapshotId ≠ "")
    (hparse : ParseSnapshotID req.snapshotId = none) :
    DeleteSnapshot p req = (.ok (), []) := by
  simp [DeleteSnapshot, hid, hparse]

/-- witness for C9: the slash-free ID "badID" is absorbed as success. -/
theorem trident_C9_deleteSnapshot_invalid_id_witness :
    DeleteSnapshot stubPlugin ⟨"badID"⟩ = (.ok (), []) :=
  trident_C9_deleteSnapshot_invalid_id stubPlugin ⟨"badID"⟩ (by decide) (by decide)

/-! ## Claim C6 (protocol / access mode matrix) -/

/-- C6 counterexample: the multi-node-single-writer CSI access mode maps to
the multi-writer (ReadWriteMany) access mode, for which the claimed matrix
declares block incompatible, yet the code admits any protocol for it: a
block-only backend set satisfies hasBackendForProtocol for that mode. -/
theorem trident_C6_counterexample :
    getAccessForCSIAccessMode .MULTI_NODE_SINGLE_WRITER = .ReadWriteMany ∧
    specProtocolCompatible .Block .ReadWriteMany = false ∧
    getProtocolForCSIAccessMode .MULTI_NODE_SINGLE_WRITER = .ProtocolAny ∧
    hasBackendForProtocol blockOnlyPlugin
      (getProtocolForCSIAccessMode .MULTI_NODE_SINGLE_WRITER) = true := by
  decide

/-- C6 amended: only the multi-node-multi-writer mode restricts the protocol
to file (every other mode admits any protocol, including block for the
multi-node-single-writer mode); consequently a multi-node-multi-writer
request against only block-protocol backends finds no backend and
CreateVolume rejects it with InvalidArgument before any provisioning call. -/
theorem trident_C6_amended (p : Plugin) (req : CreateVolumeRequest)
    (bs : List BackendExternal) (cap : VolumeCapability) (e : OrchErr) :
    (∀ m : CSIAccessMode,
      getProtocolForCSIAccessMode m = .File ↔ m = .MULTI_NODE_MULTI_WRITER) ∧
    (∀ m : CSIAccessMode, m ≠ .MULTI_NODE_MULTI_WRITER →
      getProtocolForCSIAccessMode m = .ProtocolAny) ∧
    (p.orchestrator.listBackends = .ok bs → (∀ b ∈ bs, b.protocol = .Block) →
      hasBackendForProtocol p .File = false) ∧
    (req.name ∉ p.opCache → req.name ≠ "" → req.volumeCapabilities = [cap] →
      cap.block = false → cap.accessMode = .MULTI_NODE_MULTI_WRITER →
      p.orchestrator.getVolume req.name = .error e → isNotFoundError e = true →
      p.orchestrator.listBackends = .ok bs → (∀ b ∈ bs, b.protocol = .Block) →
      (CreateVolume p req).result =
        .error ⟨.invalidArgument, "no available storage for access mode"⟩ ∧
      (CreateVolume p req).calls = []) := by
  have hfile : ∀ (q : Plugin) (bs2 : List BackendExternal),
      q.orchestrator.listBackends = .ok bs2 → (∀ b ∈ bs2, b.protocol = .Block) →
      hasBackendForProtocol q .File = false := by
    intro q bs2 hls hb
    simp only [hasBackendForProtocol, hls]
    by_cases hbs : bs2 = []
    · simp [hbs]
    · rw [if_neg hbs, if_neg (by decide)]
      rw [List.any_eq_false]
      intro b hbm
      simp [hb b hbm]
  refine ⟨?_, ?_, hfile p bs, ?_⟩
  · intro m
    cases m <;> simp [getProtocolForCSIAccessMode]
  · intro m hm
    cases m <;> simp_all [getProtocolForCSIAccessMode]
  intro hguard hname hcaps hblock hmode hget hnf hls hb
  have hno : hasBackendForProtocol { p with opCache := req.name :: p.opCache } .File = false :=
    hfile _ bs hls hb
  constructor <;>
    simp [CreateVolume, hguard, CreateVolumeBody, hname, hcaps, hget, hnf,
      checkVolumeCapabilities, hblock, hmode, getProtocolForCSIAccessMode, hno]

/-- witness for C6 amended: a multi-node-multi-writer request against the
block-only backend set is rejected with no orchestrator call. -/
theorem trident_C6_amended_witness :
    (CreateVolume blockOnlyPlugin
      { name := "v1", capacityRange := some ⟨1073741824⟩,
        volumeCapabilities :=
          [{ block := false, mount := none, accessMode := .MULTI_NODE_MULTI_WRITER }],
        parameters := [], volumeContentSource := none }).result =
      .error ⟨.invalidArgument, "no available storage for access mode"⟩ := by
  exact ((trident_C6_amended blockOnlyPlugin
      { name := "v1", capacityRange := some ⟨1073741824⟩,
        volumeCapabilities :=
          [{ block := false, mount := none, accessMode := .MULTI_NODE_MULTI_WRITER }],
        parameters := [], volumeContentSource := none }
      [{ protocol := .Block }]
      { block := false, mount := none, accessMode := .MULTI_NODE_MULTI_WRITER }
      (.notFound "volume not found")).2.2.2
    (by decide) (by decide) (by decide) (by decide) (by decide) (by decide) (by decide)
    (by decide) (by decide)).1

/-! ## Claim C2 (transaction log overwrite) -/

/-- helper: after keeping only entries whose key differs from k, no entry
with key k remains. -/
theorem filter_bne_then_beq_nil {α : Type} (Y : List (String × α)) (k : String) :
    (Y.filter (fun kv => kv.1 != k)).filter (fun kv => kv.1 == k) = [] := by
  induction Y with
  | nil => rfl
  | cons a Y ih =>
    simp only [List.filter_cons]
    by_cases h : a.1 = k
    · simp [h, ih]
    · simp [h, ih]

/-- the gold transaction of the duplicate-transaction test. -/
def goldTxn : VolumeTransaction :=
  { config := { name := "testVol", internalName := "", size := "1 GB", protocol := .File,
                accessMode := .ModeAny, storageClass := "gold",
                cloneSourceVolume := "", cloneSourceSnapshot := "" },
    op := .addVolume }

/-- the silver transaction: the same resource name, a different class. -/
def silverTxn : VolumeTransaction :=
  { goldTxn with config := { goldTxn.config with storageClass := "silver" } }

/-- C2: two Begin operations for the same resource name leave exactly one
pending transaction for that name, the later one: the filtered view holds
only it and reading the key returns it. -/
theorem trident_C2_duplicate_transaction (s : KVStore VolumeTransaction)
    (t1 t2 : VolumeTransaction)
    (hname : t1.config.name = t2.config.name) :
    pendingTransactionsFor (AddVolumeTransaction (AddVolumeTransaction s t1) t2)
      t2.config.name = [t2] ∧
    KVStore.Read (AddVolumeTransaction (AddVolumeTransaction s t1) t2)
      (volumeTransactionKey t2.config.name) = .ok t2 := by
  have hk : volumeTransactionKey t1.config.name = volumeTransactionKey t2.config.name := by
    rw [volumeTransactionKey, volumeTransactionKey, hname]
  constructor
  · simp only [AddVolumeTransaction, KVStore.Set, hk, pendingTransactionsFor]
    simp [List.filter_cons, filter_bne_then_beq_nil]
  · simp [AddVolumeTransaction, KVStore.Set, hk, KVStore.Read, List.lookup]

/-- witness for C2, mirroring TestEtcdv2DuplicateVolumeTransaction: Begin
gold then Begin silver for testVol leaves exactly the silver transaction. -/
theorem trident_C2_duplicate_transaction_witness :
    pendingTransactionsFor (AddVolumeTransaction (AddVolumeTransaction [] goldTxn) silverTxn)
      silverTxn.config.name = [silverTxn] :=
  (trident_C2_duplicate_transaction [] goldTxn silverTxn (by decide)).1

/-! ## Claim C8 (persistent store key-not-found) -/

/-- C8: Read, Update, and Delete on an absent key all fail with the
key-not-found error, which is distinguishable from the connectivity error;
Update on an absent key returns no store, so it never creates the key. -/
theorem trident_C8_store_notfound (s : KVStore String) (k v : String)
    (habs : List.lookup k s = none) :
    KVStore.Read s k = .error .keyNotFound ∧
    KVStore.Update s k v = .error .keyNotFound ∧
    KVStore.Delete s k = .error .keyNotFound ∧
    (∀ s2, KVStore.Update s k v ≠ .ok s2) ∧
    MatchKeyNotFoundErr .keyNotFound = true ∧
    MatchKeyNotFoundErr .unavailableCluster = false ∧
    MatchUnavailableClusterErr .keyNotFound = false := by
  refine ⟨?_, ?_, ?_, ?_, rfl, rfl, rfl⟩ <;>
    simp [KVStore.Read, KVStore.Update, KVStore.Delete, habs]

/-- witness for C8 at a one-entry store and the absent key b. -/
theorem trident_C8_store_notfound_witness :
    KVStore.Read [("a", "1")] "b" = .error .keyNotFound ∧
    KVStore.Update [("a", "1")] "b" "2" = .error .keyNotFound ∧
    KVStore.Delete [("a", "1")] "b" = .error .keyNotFound := by
  have h := trident_C8_store_notfound [("a", "1")] "b" "2" (by decide)
  exact ⟨h.1, h.2.1, h.2.2.1⟩

/-! ## Claim C7 (matcher candidate-set formula) -/

def poolA : PoolRef := { backend := "backend1", pool := "pool1" }
def poolB : PoolRef := { backend := "backend2", pool := "pool1" }

/-- a matcher input where an additional pool is outside the explicit
storagePools list: poolA matches no attribute, the class lists poolB as its
explicit pool and poolA as an additional pool. -/
def matcherEx : MatcherInput :=
  { poolSet := {poolA}, attrMatch := fun _ => false, pools := {poolB},
    additionalPools := {poolA}, excludePools := ∅ }

/-- C7 counterexample: the spec-ordered matcher admits the additional pool
even though it is outside the explicit storagePools list, so the claimed
formula (which intersects additional pools with storagePools) disagrees. -/
theorem trident_C7_counterexample :
    Candidates matcherEx ≠ claimedCandidates matcherEx ∧
    Candidates matcherEx = {poolA} ∧
    claimedCandidates matcherEx = ∅ := by
  refine ⟨?_, ?_, ?_⟩ <;> decide

/-- C7 amended: the candidate set equals (attribute-matched ∩ (storagePools
or universe)) ∪ AdditionalPools, minus ExcludePools: additional pools are
unioned in after the storagePools intersection, not filtered by it. -/
theorem trident_C7_amended (i : MatcherInput) :
    Candidates i = amendedCandidates i := by
  unfold Candidates amendedCandidates
  by_cases h : i.pools = ∅
  · simp [h, Finset.inter_eq_left.mpr (Finset.filter_subset _ _)]
  · simp [h]

/-! ## Claim C10 (storage class parameter parse failures) -/

/-- C10: a failed parse of a pool-list parameter leaves the corresponding
field empty and registration continues (with only such parameters, the class
is still handed to AddStorageClass), while a failed parse of an ordinary
attribute parameter aborts registration entirely. -/
theorem trident_C10_storage_class_parse (env : SCHelperEnv) (name k v : String)
    (rest : List (String × String)) (cfg : SCConfig) (perr aerr : String) :
    (env.createBackendStoragePoolsMapFromEncodedString v = .error perr →
      processSCParams env ((AdditionalStoragePools, v) :: rest) cfg =
        processSCParams env rest { cfg with additionalPools := [] } ∧
      processSCParams env ((ExcludeStoragePools, v) :: rest) cfg =
        processSCParams env rest { cfg with excludePools := [] } ∧
      processSCParams env ((StoragePools, v) :: rest) cfg =
        processSCParams env rest { cfg with pools := [] } ∧
      processAddedStorageClass env name [(AdditionalStoragePools, v)] =
        some { name := name, attributes := [], pools := [],
               additionalPools := [], excludePools := [] }) ∧
    (k ≠ K8sFsType → k ≠ RequiredStorage → k ≠ AdditionalStoragePools →
     k ≠ ExcludeStoragePools → k ≠ StoragePools →
     env.createAttributeRequestFromAttributeValue k v = .error aerr →
      processSCParams env ((k, v) :: rest) cfg = none ∧
      processAddedStorageClass env name ((k, v) :: rest) = none) := by
  constructor
  · intro hperr
    refine ⟨?_, ?_, ?_, ?_⟩ <;>
      simp [processSCParams, processAddedStorageClass, poolsOrEmpty, hperr,
        AdditionalStoragePools, ExcludeStoragePools, StoragePools, RequiredStorage, K8sFsType]
  · intro h1 h2 h3 h4 h5 haerr
    constructor <;>
      simp [processSCParams, processAddedStorageClass, h1, h2, h3, h4, h5, haerr]

/-- an environment whose parsers always fail. -/
def failingSCEnv : SCHelperEnv :=
  { createBackendStoragePoolsMapFromEncodedString := fun _ => .error "invalid backend string",
    createAttributeRequestFromAttributeValue := fun _ _ => .error "invalid attribute" }

/-- witness for C10: with failing parsers, a class with only a bad
additionalStoragePools parameter is still registered with the empty list,
and a class with a bad ordinary attribute is not registered at all. -/
theorem trident_C10_storage_class_parse_witness :
    processAddedStorageClass failingSCEnv "gold" [(AdditionalStoragePools, "garbage")] =
      some { name := "gold", attributes := [], pools := [],
             additionalPools := [], excludePools := [] } ∧
    processAddedStorageClass failingSCEnv "gold" [("media", "ssd")] = none := by
  constructor
  · exact ((trident_C10_storage_class_parse failingSCEnv "gold" "media" "garbage" []
      { name := "gold", attributes := [], pools := [], additionalPools := [],
        excludePools := [] } "invalid backend string" "invalid attribute").1 rfl).2.2.2
  · exact ((trident_C10_storage_class_parse failingSCEnv "gold" "media" "ssd" []
      { name := "gold", attributes := [], pools := [], additionalPools := [],
        excludePools := [] } "invalid backend string" "invalid attribute").2
      (by decide) (by decide) (by decide) (by decide) (by decide) rfl).2
